import Mathlib

/-!
Verification development for the kylon backend's Kubernetes client lifecycle
and health-check aggregation subsystem.

The Go sources embedded here:
- internal/infrastructure/kubernetes/client.kubernetes.go
  (InitKubernetesClient, GetKubernetesClient, package-level clientSet and
  initOnce),
- cmd/main.go (the startup sequence),
- internal/app/handlers/health.handlers.go (HealthCheckHandler),
- pkg/customErrors/errors.pkg.go (CustomError, NewCustomError, error codes).

External effects (rest.InClusterConfig, clientcmd.BuildConfigFromFlags,
kubernetes.NewForConfig, the database ping, the namespace-listing call) are
modelled as an explicit environment record: each field gives the outcome the
external call would produce in the current world. Package-level mutable state
(clientSet, initOnce) is passed explicitly as a state value. Concurrency is
modelled by its serialization: sync.Once serializes all callers of the
guarded body, so a set of (possibly concurrent) InitKubernetesClient calls is
embedded as the sequence of calls in their serialization order.
-/

namespace Kylon

/-- Value of an opaque *rest.Config produced by a connection strategy.
Only identity matters to the claims, so it is a tagged natural. -/
structure RestConfig where
  id : Nat
deriving DecidableEq, Repr

/-- Value of an opaque *kubernetes.Clientset. Only identity matters
(the spec speaks of "the same client instance"), so it is a tagged natural;
a Go nil pointer is Option.none at use sites. -/
structure Clientset where
  id : Nat
deriving DecidableEq, Repr

/-- Go error values as they occur in the embedded fragment: either an
  underlying library error (identified by its message), or a
  customerrors.CustomError from pkg/customErrors/errors.pkg.go with its
  Code, Message, wrapped Err and HTTPStatus fields. The Data field of
  CustomError is nil at every call site embedded here except the health
  handler's error envelope, which is modelled separately (ApiReply). -/
inductive GoError where
  | errorString (msg : String)
  | customNil (Code : String) (Message : String) (HTTPStatus : Nat)
  | customWrap (Code : String) (Message : String) (cause : GoError) (HTTPStatus : Nat)
deriving DecidableEq, Repr

/-- Constructor mirroring customerrors.NewCustomError (the five-argument
  revision; the Data argument is nil at every embedded call site and is
  dropped). A nil Err argument selects the constructor without a wrapped
  cause. -/
def NewCustomError (code message : String) (err : Option GoError) (httpStatus : Nat) : GoError :=
  match err with
  | none => GoError.customNil code message httpStatus
  | some e => GoError.customWrap code message e httpStatus

/-- Field access for the wrapped underlying error (CustomError.Err);
an underlying library error wraps nothing. -/
def GoError.errField : GoError → Option GoError
  | .errorString _ => none
  | .customNil _ _ _ => none
  | .customWrap _ _ e _ => some e

/-- Field access for the Code of a CustomError. -/
def GoError.codeField : GoError → Option String
  | .errorString _ => none
  | .customNil c _ _ => some c
  | .customWrap c _ _ _ => some c

/-- Error code constant from errors.pkg.go. -/
def ErrCodeK8sClientInitFailed : String := "K8S_CLIENT_INIT_FAILED"

/-- Error code constant from errors.pkg.go. -/
def ErrCodeK8sClientNotInitialized : String := "K8S_CLIENT_NOT_INITIALIZED"

/-- Error code constant from errors.pkg.go. -/
def ErrCodeInternal : String := "INTERNAL_ERROR"

/-- Slice of config.Config used by the kubernetes package:
cfg.Kubernetes.KubeconfigPath. -/
structure KubernetesConfig where
  KubeconfigPath : String
deriving DecidableEq, Repr

/-- Slice of config.Config used by the health handler:
cfg.App.Name, cfg.App.Version, cfg.App.Env. -/
structure AppConfig where
  Name : String
  Version : String
  Env : String
deriving DecidableEq, Repr

/-- Application configuration restricted to the fields the embedded fragment
reads. -/
structure Config where
  App : AppConfig
  Kubernetes : KubernetesConfig
deriving DecidableEq, Repr

/-- Constant clientcmd.RecommendedHomeFile from client-go. Its concrete value
is platform-dependent; here it is an abstract token, and no theorem depends
on the string itself, only on it being the substituted default path. -/
def RecommendedHomeFile : String := "$HOME/.kube/config"

/-- Outcomes of the external calls InitKubernetesClient performs, fixed for
one world: rest.InClusterConfig (the ambient in-cluster strategy),
clientcmd.BuildConfigFromFlags masterURL kubeconfigPath (the kubeconfig-file
strategy), and kubernetes.NewForConfig (client construction). -/
structure K8sEnv where
  InClusterConfig : Except GoError RestConfig
  BuildConfigFromFlags : String → String → Except GoError RestConfig
  NewForConfig : RestConfig → Except GoError Clientset

/-- Package-level mutable state of the kubernetes package: the singleton
clientSet pointer (nil encoded as none) and whether initOnce has fired. -/
structure KubePkgState where
  clientSet : Option Clientset
  onceDone : Bool
deriving DecidableEq, Repr

/-- State of the kubernetes package at process start: clientSet is the nil
zero value and initOnce has not fired. -/
def initialKubeState : KubePkgState :=
  { clientSet := none, onceDone := false }

/-- Kubeconfig path the fallback strategy uses: the externally supplied
cfg.Kubernetes.KubeconfigPath, with clientcmd.RecommendedHomeFile substituted
when it is empty (client.kubernetes.go lines 52-58). -/
def kubeConfigPathOf (cfg : Config) : String :=
  if cfg.Kubernetes.KubeconfigPath = "" then RecommendedHomeFile
  else cfg.Kubernetes.KubeconfigPath

/-- Body of the initOnce.Do closure in InitKubernetesClient, given the
clientSet value at entry. Returns the value of the captured local
initializationError and the clientSet value after the body.
Mirrors client.kubernetes.go lines 40-82: try rest.InClusterConfig; on error
fall back to BuildConfigFromFlags with the configured path, substituting
clientcmd.RecommendedHomeFile when that path is empty; on a config, run
kubernetes.NewForConfig, which assigns clientSet even on failure (the nil
result of the failed multi-value return). -/
def initOnceBody (env : K8sEnv) (cfg : Config) (cs0 : Option Clientset) :
    Option GoError × Option Clientset :=
  match env.InClusterConfig with
  | .ok restConfig =>
    match env.NewForConfig restConfig with
    | .ok cs => (none, some cs)
    | .error err =>
      (some (NewCustomError ErrCodeK8sClientInitFailed
          "Failed to create Kubernetes clientset" (some err) 500), none)
  | .error _ =>
    let kubeConfigPath := kubeConfigPathOf cfg
    match env.BuildConfigFromFlags "" kubeConfigPath with
    | .error err =>
      (some (NewCustomError ErrCodeK8sClientInitFailed
          ("Failed to create Kubernetes config from kubeconfig " ++ kubeConfigPath)
          (some err) 500), cs0)
    | .ok restConfig =>
      match env.NewForConfig restConfig with
      | .ok cs => (none, some cs)
      | .error err =>
        (some (NewCustomError ErrCodeK8sClientInitFailed
            "Failed to create Kubernetes clientset" (some err) 500), none)

/-- One call of InitKubernetesClient on the package state. The local variable
initializationError starts nil; initOnce.Do runs the body only when the gate
has not fired yet, otherwise it returns immediately and the local stays nil.
The call returns the local and the new package state. -/
def InitKubernetesClient (env : K8sEnv) (cfg : Config) (s : KubePkgState) :
    Option GoError × KubePkgState :=
  if s.onceDone then
    (none, s)
  else
    let r := initOnceBody env cfg s.clientSet
    (r.1, { clientSet := r.2, onceDone := true })

/-- GetKubernetesClient: a pure read of the package state. Returns the stored
clientSet when non-nil, otherwise the K8S_CLIENT_NOT_INITIALIZED custom error
built with a nil underlying error. -/
def GetKubernetesClient (s : KubePkgState) : Except GoError Clientset :=
  match s.clientSet with
  | none =>
    .error (NewCustomError ErrCodeK8sClientNotInitialized
      "Kubernetes client has not been initialized. Ensure InitKubernetesClient was called successfully during startup."
      none 500)
  | some cs => .ok cs

/-- List of the return values of n sequential InitKubernetesClient calls
(their serialization order under sync.Once), with the final state. -/
def runInitCalls (env : K8sEnv) (cfg : Config) :
    Nat → KubePkgState → List (Option GoError) × KubePkgState
  | 0, s => ([], s)
  | n + 1, s =>
    let r := InitKubernetesClient env cfg s
    let rest := runInitCalls env cfg n r.2
    (r.1 :: rest.1, rest.2)

/-- Return values of n sequential InitKubernetesClient calls from process
start. -/
def initResults (env : K8sEnv) (cfg : Config) (n : Nat) : List (Option GoError) :=
  (runInitCalls env cfg n initialKubeState).1

/-- Number of times the initOnce.Do body (the connection-strategy sequence)
executes across n sequential calls from state s: the body runs in a call
exactly when the gate has not fired at entry. -/
def bodyRunCount (env : K8sEnv) (cfg : Config) :
    Nat → KubePkgState → Nat
  | 0, _ => 0
  | n + 1, s =>
    (if s.onceDone then 0 else 1) +
      bodyRunCount env cfg n (InitKubernetesClient env cfg s).2

/-- Value of an opaque *gorm.DB database handle. -/
structure GormDB where
  id : Nat
deriving DecidableEq, Repr

/-- Possible endings of the startup sequence in cmd/main.go: each exit
constructor is an os.Exit path (logrus Fatal calls os.Exit(1)); serving means
the HTTP server was started with the given dependencies injected. -/
inductive MainOutcome where
  | exitConfigLoad
  | exitMigrate
  | exitKubeInit (e : GoError)
  | exitKubeGet (e : GoError)
  | serving (db : Option GormDB) (kubeClient : Clientset)
deriving DecidableEq, Repr

/-- Steps 4-7 of main: InitKubernetesClient from process start, a non-nil
error is logged with Fatal (which exits); otherwise GetKubernetesClient, a
non-nil error is again Fatal; otherwise NewServer is built and Start is
called, i.e. the HTTP server serves. -/
def mainAfterDatabase (cfg : Config) (db : Option GormDB) (env : K8sEnv) : MainOutcome :=
  let r := InitKubernetesClient env cfg initialKubeState
  match r.1 with
  | some e => .exitKubeInit e
  | none =>
    match GetKubernetesClient r.2 with
    | .error e => .exitKubeGet e
    | .ok kubeClient => .serving db kubeClient

/-- Startup sequence of cmd/main.go as a function of the outcomes of its
external steps: configuration loading, database connection,
auto-migration (consulted only when the connection succeeded), and the
Kubernetes environment. A failed database connection sets db to nil and
continues; a failed migration is Fatal; the Kubernetes steps follow
mainAfterDatabase. -/
def mainStartup (loadResult : Except GoError Config)
    (connectResult : Except GoError GormDB) (migrateResult : Option GoError)
    (env : K8sEnv) : MainOutcome :=
  match loadResult with
  | .error _ => .exitConfigLoad
  | .ok cfg =>
    match connectResult with
    | .error _ => mainAfterDatabase cfg none env
    | .ok d =>
      match migrateResult with
      | some _ => .exitMigrate
      | none => mainAfterDatabase cfg (some d) env

/-- Outcome of the database health probe as the handler observes it:
db handle nil, db.DB() failing, the bounded PingContext failing (which
includes exceeding the 2-second timeout, surfacing as a deadline error),
or a clean ping. -/
inductive DbProbeOutcome where
  | noDb
  | poolError (e : GoError)
  | pingError (e : GoError)
  | pingOk
deriving DecidableEq, Repr

/-- Outcome of the Kubernetes health probe as the handler observes it:
client handle nil, the bounded namespace-listing call failing (which
includes exceeding the 3-second timeout), or a clean listing. -/
inductive KubeProbeOutcome where
  | noClient
  | listError (e : GoError)
  | listOk
deriving DecidableEq, Repr

/-- Dependency entries of HealthCheckResponse, one per registered probe. -/
structure Dependencies where
  database : String
  kubernetes : String
deriving DecidableEq, Repr

/-- Structure HealthCheckResponse from health.handlers.go. -/
structure HealthCheckResponse where
  Status : String
  Message : String
  Application : String
  Version : String
  Environment : String
  Timestamp : String
  Dependencies : Dependencies
deriving DecidableEq, Repr

/-- Rendering of http.StatusText for the status codes the handler uses. -/
def statusText (n : Nat) : String :=
  if n = 200 then "OK" else if n = 500 then "Internal Server Error" else ""

/-- Rendering of err.Error() for the embedded error values, following
CustomError.Error in errors.pkg.go for the custom constructors. -/
def GoError.goErrorText : GoError → String
  | .errorString m => m
  | .customNil c m _ => "code: " ++ c ++ ", message: " ++ m
  | .customWrap c m e _ =>
    "code: " ++ c ++ ", message: " ++ m ++ ", underlying_error: " ++ e.goErrorText

/-- Structure APIErrorDetail from utils response.go (the second document of
cors.middleware.go): detailed error information inside the generic envelope.
Its Data field has Go type any; at the health handler call site it carries
the full health response, so it is typed accordingly here. -/
structure APIErrorDetail where
  Code : String
  Message : String
  Data : Option HealthCheckResponse
deriving DecidableEq, Repr

/-- Structure APIResponse from utils response.go: the standardized response
body. Its Data field has Go type any; the health handler passes the health
response there on success, so it is typed accordingly here. -/
structure APIResponse where
  Success : Bool
  Message : String
  Data : Option HealthCheckResponse
  Error : Option APIErrorDetail
deriving DecidableEq, Repr

/-- HTTP reply as written by c.JSON in utils response.go: the status code
passed to c.JSON plus the serialized body. -/
structure HttpReply where
  statusCode : Nat
  body : APIResponse
deriving DecidableEq, Repr

/-- Function utils.SuccessResponse: c.JSON of the given status with
Success=true, the message and the data payload (Error left nil). -/
def SuccessResponse (statusCode : Nat) (message : String)
    (data : HealthCheckResponse) : HttpReply :=
  { statusCode := statusCode
    body := { Success := true, Message := message, Data := some data, Error := none } }

/-- CustomError record as it reaches utils.ErrorResponse from the health
handler: the five NewCustomError fields with Data typed at the
health-response payload this call site passes. -/
structure CustomErrorData where
  Code : String
  Message : String
  Err : Option GoError
  HTTPStatus : Nat
  Data : Option HealthCheckResponse
deriving DecidableEq, Repr

/-- Function utils.ErrorResponse on the errors.As branch for a *CustomError
argument — the health handler always passes one, so the non-CustomError
fallback branch is unreachable from the embedded call site. The status code
is the CustomError HTTPStatus; an empty Code falls back to ErrCodeInternal
and an empty Message to the default text; the body carries Success=false,
the message, a nil Data field and the error detail holding the code, the
message and the CustomError Data. -/
def ErrorResponse (ce : CustomErrorData) : HttpReply :=
  let code := if ce.Code = "" then ErrCodeInternal else ce.Code
  let message := if ce.Message = "" then "An unspecified custom error occurred." else ce.Message
  { statusCode := ce.HTTPStatus
    body := { Success := false
              Message := message
              Data := none
              Error := some { Code := code, Message := message, Data := ce.Data } } }

/-- Health payload carried by a reply: the body Data on the success envelope,
the error-detail Data on the error envelope. -/
def HttpReply.healthPayload (r : HttpReply) : Option HealthCheckResponse :=
  match r.body.Error with
  | some d => d.Data
  | none => r.body.Data

/-- Database block of HealthCheckHandler (health.handlers.go lines 77-99):
given the probe outcome, produce the database dependency entry, the overall
HTTP status after the block, and the overall message after the block,
starting from the initial 200 / healthy values. -/
def dbCheck (dbp : DbProbeOutcome) : String × Nat × String :=
  match dbp with
  | .noDb => ("N/A", 200, "Service is healthy")
  | .poolError _ =>
    ("DOWN - Connection Pool Error", 500,
     "Service unhealthy: Database connection pool issue")
  | .pingError e =>
    ("DOWN - " ++ e.goErrorText, 500,
     "Service unhealthy: Database connectivity failed")
  | .pingOk => ("UP", 200, "Service is healthy")

/-- Kubernetes block of HealthCheckHandler (health.handlers.go lines
101-122): given the probe outcome and the overall status and message left by
the database block, produce the kubernetes dependency entry and the updated
overall status and message; a listing failure degrades the overall status
only when it is still 200. -/
def kubeCheck (kubep : KubeProbeOutcome) (st : Nat) (msg : String) :
    String × Nat × String :=
  match kubep with
  | .noClient => ("N/A", st, msg)
  | .listError e =>
    ("DOWN - " ++ e.goErrorText,
     if st = 200 then 500 else st,
     if st = 200 then "Service unhealthy: Kubernetes API communication failed" else msg)
  | .listOk => ("UP", st, msg)

/-- Health response value as assembled by the handler body after both probe
blocks: the initial fields from the configuration and the timestamp, the
dependency entries from the two blocks, and Status and Message overwritten
from the final overall values (health.handlers.go lines 56-126). -/
def healthResponse (cfg : Config) (dbp : DbProbeOutcome)
    (kubep : KubeProbeOutcome) (timestamp : String) : HealthCheckResponse :=
  let d := dbCheck dbp
  let k := kubeCheck kubep d.2.1 d.2.2
  { Status := statusText k.2.1
    Message := k.2.2
    Application := cfg.App.Name
    Version := cfg.App.Version
    Environment := cfg.App.Env
    Timestamp := timestamp
    Dependencies := { database := d.1, kubernetes := k.1 } }

/-- Body of the gin handler returned by HealthCheckHandler, as a function of
the configuration, the two probe outcomes and the formatted timestamp. It
runs the database block, then the kubernetes block, builds the response, and
replies through utils.SuccessResponse on overall 200, otherwise through
utils.ErrorResponse on a NewCustomError carrying ErrCodeInternal, the overall
message, a nil wrapped error, the overall status and the full response as
Data (health.handlers.go lines 128-138). -/
def HealthCheckHandler (cfg : Config) (dbp : DbProbeOutcome)
    (kubep : KubeProbeOutcome) (timestamp : String) : HttpReply :=
  let d := dbCheck dbp
  let k := kubeCheck kubep d.2.1 d.2.2
  let response := healthResponse cfg dbp kubep timestamp
  if k.2.1 ≠ 200 then
    ErrorResponse
      { Code := ErrCodeInternal, Message := k.2.2, Err := none,
        HTTPStatus := k.2.1, Data := some response }
  else
    SuccessResponse 200 response.Message response

/-- Copy of a health response with the timestamp blanked, for comparing
reports up to timestamp. -/
def HealthCheckResponse.eraseTimestamp (r : HealthCheckResponse) : HealthCheckResponse :=
  { r with Timestamp := "" }

/-- Copy of a response body with any carried payload timestamp blanked. -/
def APIResponse.eraseTimestamp (b : APIResponse) : APIResponse :=
  { b with
    Data := b.Data.map HealthCheckResponse.eraseTimestamp
    Error := b.Error.map fun d => { d with Data := d.Data.map HealthCheckResponse.eraseTimestamp } }

/-- Copy of a reply with any carried payload timestamp blanked. -/
def HttpReply.eraseTimestamp (r : HttpReply) : HttpReply :=
  { r with body := r.body.eraseTimestamp }

/-- Whether the probe named database is configured (the handler checks the
db handle against nil). -/
def dbConfigured (dbp : DbProbeOutcome) : Bool :=
  match dbp with
  | .noDb => false
  | _ => true

/-- Whether the probe named kubernetes is configured (the handler checks the
client handle against nil). -/
def kubeConfigured (kubep : KubeProbeOutcome) : Bool :=
  match kubep with
  | .noClient => false
  | _ => true

/-! Concrete worlds used to instantiate the theorems. -/

/-- Sample failure of the ambient in-cluster strategy. -/
def inClusterErr : GoError := .errorString "unable to load in-cluster configuration"

/-- Sample failure of the kubeconfig-file strategy. -/
def buildErr : GoError := .errorString "stat kubeconfig: no such file or directory"

/-- Sample failure of client construction. -/
def ctorErr : GoError := .errorString "invalid configuration: no configuration has been provided"

/-- Sample rest.Config produced by the ambient strategy. -/
def rcAmbient : RestConfig := ⟨0⟩

/-- Sample rest.Config produced by the kubeconfig-file strategy. -/
def rcFile : RestConfig := ⟨1⟩

/-- Sample constructed clientset. -/
def csMain : Clientset := ⟨7⟩

/-- Sample configuration with an empty kubeconfig path. -/
def cfgEmptyPath : Config :=
  { App := { Name := "kylon", Version := "0.1.0", Env := "development" }
    Kubernetes := { KubeconfigPath := "" } }

/-- Sample world where both connection strategies fail. -/
def envBothFail : K8sEnv :=
  { InClusterConfig := .error inClusterErr
    BuildConfigFromFlags := fun _ _ => .error buildErr
    NewForConfig := fun _ => .ok csMain }

/-- Sample world where the ambient strategy succeeds. -/
def envAmbientOk : K8sEnv :=
  { InClusterConfig := .ok rcAmbient
    BuildConfigFromFlags := fun _ _ => .error buildErr
    NewForConfig := fun _ => .ok csMain }

/-- Sample world where the ambient strategy fails and the kubeconfig-file
strategy succeeds exactly at the default home path. -/
def envFallbackOk : K8sEnv :=
  { InClusterConfig := .error inClusterErr
    BuildConfigFromFlags := fun _ p => if p = RecommendedHomeFile then .ok rcFile else .error buildErr
    NewForConfig := fun _ => .ok csMain }

/-- Sample world where a strategy succeeds but client construction fails. -/
def envCtorFail : K8sEnv :=
  { InClusterConfig := .ok rcAmbient
    BuildConfigFromFlags := fun _ _ => .ok rcFile
    NewForConfig := fun _ => .error ctorErr }

/-- Sample world where the ambient strategy fails, the kubeconfig-file
strategy succeeds, and client construction then fails. -/
def envFallbackCtorFail : K8sEnv :=
  { InClusterConfig := .error inClusterErr
    BuildConfigFromFlags := fun _ _ => .ok rcFile
    NewForConfig := fun _ => .error ctorErr }

/-! Helper lemmas about the initialization gate. -/

/-- Lemma: once the gate has fired, every further call is a no-op returning
nil, so a run of n calls returns n nils and leaves the state unchanged. -/
theorem runInitCalls_of_onceDone (env : K8sEnv) (cfg : Config) :
    ∀ (n : Nat) (s : KubePkgState), s.onceDone = true →
      runInitCalls env cfg n s = (List.replicate n none, s)
  | 0, s, _ => by simp [runInitCalls]
  | n + 1, s, h => by
    simp [runInitCalls, InitKubernetesClient, h,
      runInitCalls_of_onceDone env cfg n s h, List.replicate]

/-- Lemma: once the gate has fired, the body never runs again. -/
theorem bodyRunCount_of_onceDone (env : K8sEnv) (cfg : Config) :
    ∀ (n : Nat) (s : KubePkgState), s.onceDone = true →
      bodyRunCount env cfg n s = 0
  | 0, _, _ => by simp [bodyRunCount]
  | n + 1, s, h => by
    simp [bodyRunCount, InitKubernetesClient, h,
      bodyRunCount_of_onceDone env cfg n s h]

/-- Lemma: shape of a run of n+1 calls from process start: the first call
returns the body's error and every later call returns nil. -/
theorem runInitCalls_from_start (env : K8sEnv) (cfg : Config) (n : Nat) :
    runInitCalls env cfg (n + 1) initialKubeState =
      ((initOnceBody env cfg none).1 :: List.replicate n none,
       { clientSet := (initOnceBody env cfg none).2, onceDone := true }) := by
  simp [runInitCalls, InitKubernetesClient, initialKubeState,
    runInitCalls_of_onceDone env cfg n
      { clientSet := (initOnceBody env cfg none).2, onceDone := true } rfl]

/-- C1 (amended): across any number n of (serialized) InitializeOnce calls
from process start, the connection-strategy body executes exactly once; the
triggering first call returns the outcome of the strategy body (hence on
success every call returns nil, an identical outcome for all callers); but
every later call returns nil unconditionally, so after a failed first call
the later callers do not receive the cached InitializationError. -/
theorem C1_once_body_and_later_calls (env : K8sEnv) (cfg : Config) (n : Nat)
    (h : 1 ≤ n) :
    bodyRunCount env cfg n initialKubeState = 1 ∧
    (initResults env cfg n).head? = some (initOnceBody env cfg none).1 ∧
    ∀ r ∈ (initResults env cfg n).tail, r = none := by
  obtain ⟨m, rfl⟩ : ∃ m, n = m + 1 := ⟨n - 1, by omega⟩
  refine ⟨?_, ?_, ?_⟩
  · simp [bodyRunCount, InitKubernetesClient, initialKubeState,
      bodyRunCount_of_onceDone env cfg m
        { clientSet := (initOnceBody env cfg none).2, onceDone := true } rfl]
  · simp [initResults, runInitCalls_from_start]
  · intro r hr
    simp [initResults, runInitCalls_from_start] at hr
    exact hr.2

/-- C1 witness: the amended statement instantiated in the world where the
ambient strategy succeeds, over two serialized calls. -/
theorem C1_witness :
    1 ≤ 2 ∧
    (bodyRunCount envAmbientOk cfgEmptyPath 2 initialKubeState = 1 ∧
     (initResults envAmbientOk cfgEmptyPath 2).head? =
       some (initOnceBody envAmbientOk cfgEmptyPath none).1 ∧
     ∀ r ∈ (initResults envAmbientOk cfgEmptyPath 2).tail, r = none) :=
  ⟨by decide, C1_once_body_and_later_calls envAmbientOk cfgEmptyPath 2 (by decide)⟩

/-- C1 counterexample: in the world where both strategies fail, the first of
two serialized InitializeOnce calls returns the InitializationError while the
second returns nil — the callers do not observe an identical outcome and the
error is not handed to later callers. -/
theorem C1_counterexample :
    initResults envBothFail cfgEmptyPath 2 =
      [some (GoError.customWrap ErrCodeK8sClientInitFailed
        ("Failed to create Kubernetes config from kubeconfig " ++ RecommendedHomeFile)
        buildErr 500),
       none] ∧
    (initResults envBothFail cfgEmptyPath 2).get? 1 ≠
      (initResults envBothFail cfgEmptyPath 2).get? 0 := by
  refine ⟨rfl, ?_⟩
  decide

/-- Whether a startup outcome reached the serving state. -/
def MainOutcome.isServing : MainOutcome → Bool
  | .serving _ _ => true
  | _ => false

/-- C2 (amended): an InitializeOnce failure at startup is process-fatal — main
takes the exitKubeInit path (logrus Fatal, hence os.Exit(1)) and the HTTP
server never starts; the server starts only when initialization succeeds.
Degrade-and-serve holds only for the database: with a failed database
connection but successful Kubernetes initialization, the server starts with a
nil database handle. -/
theorem C2_init_failure_aborts (cfg : Config) (db : Option GormDB) (env : K8sEnv) :
    (∀ e, (InitKubernetesClient env cfg initialKubeState).1 = some e →
      mainAfterDatabase cfg db env = MainOutcome.exitKubeInit e ∧
      (mainAfterDatabase cfg db env).isServing = false ∧
      ∀ dbErr, mainStartup (.ok cfg) (.error dbErr) none env = MainOutcome.exitKubeInit e) ∧
    (∀ cs, (InitKubernetesClient env cfg initialKubeState).1 = none →
      (InitKubernetesClient env cfg initialKubeState).2.clientSet = some cs →
      ∀ dbErr, mainStartup (.ok cfg) (.error dbErr) none env = MainOutcome.serving none cs) := by
  constructor
  · intro e he
    have h1 : mainAfterDatabase cfg db env = MainOutcome.exitKubeInit e := by
      simp [mainAfterDatabase, he]
    have h2 : mainAfterDatabase cfg none env = MainOutcome.exitKubeInit e := by
      simp [mainAfterDatabase, he]
    exact ⟨h1, by simp [h1, MainOutcome.isServing], fun dbErr => by simp [mainStartup, h2]⟩
  · intro cs he hcs dbErr
    simp [mainStartup, mainAfterDatabase, he, GetKubernetesClient, hcs]

/-- C2 witness: the fatal path in the world where both strategies fail, and
the database-degraded serving path in the world where the ambient strategy
succeeds. -/
theorem C2_witness :
    mainAfterDatabase cfgEmptyPath none envBothFail =
      MainOutcome.exitKubeInit (GoError.customWrap ErrCodeK8sClientInitFailed
        ("Failed to create Kubernetes config from kubeconfig " ++ RecommendedHomeFile)
        buildErr 500) ∧
    mainStartup (.ok cfgEmptyPath) (.error (GoError.errorString "connection refused"))
      none envAmbientOk = MainOutcome.serving none csMain :=
  ⟨((C2_init_failure_aborts cfgEmptyPath none envBothFail).1 _ rfl).1,
   (C2_init_failure_aborts cfgEmptyPath none envAmbientOk).2 csMain rfl rfl _⟩

/-- C2 counterexample: in the world where both strategies fail, the startup
sequence ends in the exitKubeInit outcome (a fatal log followed by process
exit) and the server is not serving — the process does abort, contrary to the
claim. -/
theorem C2_counterexample :
    mainStartup (.ok cfgEmptyPath) (.ok ⟨0⟩) none envBothFail =
      MainOutcome.exitKubeInit (GoError.customWrap ErrCodeK8sClientInitFailed
        ("Failed to create Kubernetes config from kubeconfig " ++ RecommendedHomeFile)
        buildErr 500) ∧
    (mainStartup (.ok cfgEmptyPath) (.ok ⟨0⟩) none envBothFail).isServing = false :=
  ⟨rfl, rfl⟩

/-- C3 (amended): GetKubernetesClient is a pure, non-blocking read whose
result depends only on the stored handle (it takes no environment and
triggers no initialization): whenever the handle is absent — uninitialized,
mid-initialization, or failed — it deterministically returns the
K8S_CLIENT_NOT_INITIALIZED custom error; but that error is built with a nil
underlying error, so in the failed case it does not expose the original
initialization cause. When the handle is present it returns that client. -/
theorem C3_get_pure_read (s : KubePkgState) :
    (s.clientSet = none →
      GetKubernetesClient s =
        .error (GoError.customNil ErrCodeK8sClientNotInitialized
          "Kubernetes client has not been initialized. Ensure InitKubernetesClient was called successfully during startup." 500) ∧
      ∀ e, GetKubernetesClient s = .error e → e.errField = none) ∧
    (∀ cs, s.clientSet = some cs → GetKubernetesClient s = .ok cs) ∧
    (∀ t : KubePkgState, s.clientSet = t.clientSet →
      GetKubernetesClient s = GetKubernetesClient t) := by
  refine ⟨?_, ?_, ?_⟩
  · intro h
    refine ⟨by simp [GetKubernetesClient, h, NewCustomError], ?_⟩
    intro e he
    simp [GetKubernetesClient, h, NewCustomError] at he
    simp [← he, GoError.errField]
  · intro cs h
    simp [GetKubernetesClient, h]
  · intro t h
    simp [GetKubernetesClient, h]

/-- C3 witness: the amended statement instantiated at the process-start
state, where the handle is absent. -/
theorem C3_witness :
    GetKubernetesClient initialKubeState =
      .error (GoError.customNil ErrCodeK8sClientNotInitialized
        "Kubernetes client has not been initialized. Ensure InitKubernetesClient was called successfully during startup." 500) :=
  ((C3_get_pure_read initialKubeState).1 rfl).1

/-- C3 counterexample: after a failed initialization whose
InitializationError wraps the concrete strategy failure, GetKubernetesClient
returns the not-initialized error whose wrapped-cause field is nil — it does
not expose the original initialization cause. -/
theorem C3_counterexample :
    (InitKubernetesClient envBothFail cfgEmptyPath initialKubeState).1 =
      some (GoError.customWrap ErrCodeK8sClientInitFailed
        ("Failed to create Kubernetes config from kubeconfig " ++ RecommendedHomeFile)
        buildErr 500) ∧
    (GoError.customWrap ErrCodeK8sClientInitFailed
        ("Failed to create Kubernetes config from kubeconfig " ++ RecommendedHomeFile)
        buildErr 500).errField = some buildErr ∧
    GetKubernetesClient (InitKubernetesClient envBothFail cfgEmptyPath initialKubeState).2 =
      .error (GoError.customNil ErrCodeK8sClientNotInitialized
        "Kubernetes client has not been initialized. Ensure InitKubernetesClient was called successfully during startup." 500) ∧
    (GoError.customNil ErrCodeK8sClientNotInitialized
        "Kubernetes client has not been initialized. Ensure InitKubernetesClient was called successfully during startup." 500).errField = none :=
  ⟨rfl, rfl, rfl, rfl⟩

/-- C4 (as claimed): the strategy chain is tried in order with first success
winning — on ambient success the fallback strategy is never consulted (the
result is invariant under replacing it); the fallback uses the configured
path, substituting the platform default exactly when the configured path is
empty; a strategy success followed by successful construction yields Ready
with that client (and GetClient then returns the same instance); both
strategies failing wraps the final strategy's error preserving the cause and
the handle is Failed; construction failure after the success of either
strategy — ambient or fallback — is a terminal Failed outcome, and from the
terminal state no call re-runs any strategy (so in particular a
construction failure on the fallback path is never retried against the
earlier ambient strategy). -/
theorem C4_strategy_chain (env : K8sEnv) (cfg : Config) :
    (∀ rc g, env.InClusterConfig = .ok rc →
      InitKubernetesClient { env with BuildConfigFromFlags := g } cfg initialKubeState =
        InitKubernetesClient env cfg initialKubeState) ∧
    (∀ rc cs, env.InClusterConfig = .ok rc → env.NewForConfig rc = .ok cs →
      InitKubernetesClient env cfg initialKubeState =
        (none, { clientSet := some cs, onceDone := true })) ∧
    (cfg.Kubernetes.KubeconfigPath = "" → kubeConfigPathOf cfg = RecommendedHomeFile) ∧
    (cfg.Kubernetes.KubeconfigPath ≠ "" → kubeConfigPathOf cfg = cfg.Kubernetes.KubeconfigPath) ∧
    (∀ e1 rc cs, env.InClusterConfig = .error e1 →
      env.BuildConfigFromFlags "" (kubeConfigPathOf cfg) = .ok rc →
      env.NewForConfig rc = .ok cs →
      InitKubernetesClient env cfg initialKubeState =
        (none, { clientSet := some cs, onceDone := true }) ∧
      GetKubernetesClient { clientSet := some cs, onceDone := true } = .ok cs) ∧
    (∀ e1 e2, env.InClusterConfig = .error e1 →
      env.BuildConfigFromFlags "" (kubeConfigPathOf cfg) = .error e2 →
      InitKubernetesClient env cfg initialKubeState =
        (some (GoError.customWrap ErrCodeK8sClientInitFailed
          ("Failed to create Kubernetes config from kubeconfig " ++ kubeConfigPathOf cfg) e2 500),
         { clientSet := none, onceDone := true })) ∧
    (∀ rc ce, env.InClusterConfig = .ok rc → env.NewForConfig rc = .error ce →
      InitKubernetesClient env cfg initialKubeState =
        (some (GoError.customWrap ErrCodeK8sClientInitFailed
          "Failed to create Kubernetes clientset" ce 500),
         { clientSet := none, onceDone := true }) ∧
      ∀ (env2 : K8sEnv) (cfg2 : Config),
        InitKubernetesClient env2 cfg2 { clientSet := none, onceDone := true } =
          (none, { clientSet := none, onceDone := true })) ∧
    (∀ e1 rc ce, env.InClusterConfig = .error e1 →
      env.BuildConfigFromFlags "" (kubeConfigPathOf cfg) = .ok rc →
      env.NewForConfig rc = .error ce →
      InitKubernetesClient env cfg initialKubeState =
        (some (GoError.customWrap ErrCodeK8sClientInitFailed
          "Failed to create Kubernetes clientset" ce 500),
         { clientSet := none, onceDone := true }) ∧
      ∀ (env2 : K8sEnv) (cfg2 : Config),
        InitKubernetesClient env2 cfg2 { clientSet := none, onceDone := true } =
          (none, { clientSet := none, onceDone := true })) := by
  refine ⟨?_, ?_, ?_, ?_, ?_, ?_, ?_, ?_⟩
  · intro rc g h
    simp [InitKubernetesClient, initialKubeState, initOnceBody, h]
  · intro rc cs h hc
    simp [InitKubernetesClient, initialKubeState, initOnceBody, h, hc]
  · intro h
    simp [kubeConfigPathOf, h]
  · intro h
    simp [kubeConfigPathOf, h]
  · intro e1 rc cs h hb hc
    refine ⟨?_, by simp [GetKubernetesClient]⟩
    simp [InitKubernetesClient, initialKubeState, initOnceBody, h, hb, hc]
  · intro e1 e2 h hb
    simp [InitKubernetesClient, initialKubeState, initOnceBody, h, hb, NewCustomError]
  · intro rc ce h hc
    refine ⟨?_, ?_⟩
    · simp [InitKubernetesClient, initialKubeState, initOnceBody, h, hc, NewCustomError]
    · intro env2 cfg2
      simp [InitKubernetesClient]
  · intro e1 rc ce h hb hc
    refine ⟨?_, ?_⟩
    · simp [InitKubernetesClient, initialKubeState, initOnceBody, h, hb, hc, NewCustomError]
    · intro env2 cfg2
      simp [InitKubernetesClient]

/-- C4 witness: the chain instantiated in five concrete worlds — ambient
success, fallback success at the default path with an empty configured path,
both strategies failing, construction failure after ambient success, and
construction failure after fallback success. -/
theorem C4_witness :
    InitKubernetesClient envAmbientOk cfgEmptyPath initialKubeState =
      (none, { clientSet := some csMain, onceDone := true }) ∧
    InitKubernetesClient envFallbackOk cfgEmptyPath initialKubeState =
      (none, { clientSet := some csMain, onceDone := true }) ∧
    InitKubernetesClient envBothFail cfgEmptyPath initialKubeState =
      (some (GoError.customWrap ErrCodeK8sClientInitFailed
        ("Failed to create Kubernetes config from kubeconfig " ++ kubeConfigPathOf cfgEmptyPath)
        buildErr 500),
       { clientSet := none, onceDone := true }) ∧
    InitKubernetesClient envCtorFail cfgEmptyPath initialKubeState =
      (some (GoError.customWrap ErrCodeK8sClientInitFailed
        "Failed to create Kubernetes clientset" ctorErr 500),
       { clientSet := none, onceDone := true }) ∧
    InitKubernetesClient envFallbackCtorFail cfgEmptyPath initialKubeState =
      (some (GoError.customWrap ErrCodeK8sClientInitFailed
        "Failed to create Kubernetes clientset" ctorErr 500),
       { clientSet := none, onceDone := true }) :=
  ⟨((C4_strategy_chain envAmbientOk cfgEmptyPath).2.1 rcAmbient csMain rfl rfl),
   (((C4_strategy_chain envFallbackOk cfgEmptyPath).2.2.2.2.1 inClusterErr rcFile csMain
      rfl (by simp [envFallbackOk, kubeConfigPathOf, cfgEmptyPath]) rfl).1),
   ((C4_strategy_chain envBothFail cfgEmptyPath).2.2.2.2.2.1 inClusterErr buildErr rfl rfl),
   (((C4_strategy_chain envCtorFail cfgEmptyPath).2.2.2.2.2.2.1 rcAmbient ctorErr rfl rfl).1),
   (((C4_strategy_chain envFallbackCtorFail cfgEmptyPath).2.2.2.2.2.2.2 inClusterErr rcFile ctorErr
      rfl rfl rfl).1)⟩

/-- Sample timestamp. -/
def t0 : String := "2026-02-03T04:05:06Z"

/-- Sample probe error for an exceeded probe timeout. -/
def deadlineErr : GoError := .errorString "context deadline exceeded"

/-- Lemma: a dependency entry carrying a failure detail is never the string
reserved for a healthy probe or for an unconfigured one. -/
theorem down_entry_ne (t s : String) (h : s.length < 7) : "DOWN - " ++ t ≠ s := by
  intro he
  have h2 := congrArg String.length he
  rw [String.length_append] at h2
  have h3 : "DOWN - ".length = 7 := rfl
  omega

/-- Lemma: a failure entry is never the healthy entry. -/
theorem down_ne_up (t : String) : "DOWN - " ++ t ≠ "UP" :=
  down_entry_ne t "UP" (by decide)

/-- Lemma: a failure entry is never the unconfigured entry. -/
theorem down_ne_na (t : String) : "DOWN - " ++ t ≠ "N/A" :=
  down_entry_ne t "N/A" (by decide)

/-- C5: the overall reply status is 200 exactly when every configured probe
entry reads UP; an unconfigured probe is reported N/A and excluded from the
computation; the status is always 200 or 500; the report Status field reads
OK exactly on 200; the success envelope is used exactly on 200; the reply
carries the full report in both envelopes; and on 500 the reply is exactly
utils.ErrorResponse of the internal-code CustomError holding the overall
message and the same report as Data. -/
theorem C5_overall_iff_probes_up (cfg : Config) (dbp : DbProbeOutcome)
    (kubep : KubeProbeOutcome) (ts : String) :
    ((HealthCheckHandler cfg dbp kubep ts).statusCode = 200 ↔
      ((dbConfigured dbp = true →
        (healthResponse cfg dbp kubep ts).Dependencies.database = "UP") ∧
       (kubeConfigured kubep = true →
        (healthResponse cfg dbp kubep ts).Dependencies.kubernetes = "UP"))) ∧
    (dbConfigured dbp = false →
      (healthResponse cfg dbp kubep ts).Dependencies.database = "N/A") ∧
    (kubeConfigured kubep = false →
      (healthResponse cfg dbp kubep ts).Dependencies.kubernetes = "N/A") ∧
    ((HealthCheckHandler cfg dbp kubep ts).statusCode = 200 ∨
      (HealthCheckHandler cfg dbp kubep ts).statusCode = 500) ∧
    ((healthResponse cfg dbp kubep ts).Status = "OK" ↔
      (HealthCheckHandler cfg dbp kubep ts).statusCode = 200) ∧
    ((HealthCheckHandler cfg dbp kubep ts).body.Success = true ↔
      (HealthCheckHandler cfg dbp kubep ts).statusCode = 200) ∧
    ((HealthCheckHandler cfg dbp kubep ts).healthPayload =
      some (healthResponse cfg dbp kubep ts)) ∧
    ((HealthCheckHandler cfg dbp kubep ts).statusCode = 500 →
      HealthCheckHandler cfg dbp kubep ts =
        ErrorResponse
          { Code := ErrCodeInternal
            Message := (healthResponse cfg dbp kubep ts).Message
            Err := none
            HTTPStatus := 500
            Data := some (healthResponse cfg dbp kubep ts) }) := by
  cases dbp <;> cases kubep <;>
    simp [HealthCheckHandler, healthResponse, dbCheck, kubeCheck, dbConfigured,
      kubeConfigured, SuccessResponse, ErrorResponse, ErrCodeInternal,
      HttpReply.healthPayload, statusText, down_ne_up, down_ne_na]

/-- C5 witness: concrete applications of the overall-status equivalence — all
probes up yields 200; database unconfigured with the cluster probe up still
yields 200; a cluster probe failure forces 500. -/
theorem C5_witness :
    (HealthCheckHandler cfgEmptyPath .pingOk .listOk t0).statusCode = 200 ∧
    (HealthCheckHandler cfgEmptyPath .noDb .listOk t0).statusCode = 200 ∧
    (HealthCheckHandler cfgEmptyPath .pingOk (.listError deadlineErr) t0).statusCode = 500 := by
  have h1 := C5_overall_iff_probes_up cfgEmptyPath .pingOk .listOk t0
  have h2 := C5_overall_iff_probes_up cfgEmptyPath .noDb .listOk t0
  have h3 := C5_overall_iff_probes_up cfgEmptyPath .pingOk (.listError deadlineErr) t0
  refine ⟨h1.1.mpr ⟨fun _ => rfl, fun _ => rfl⟩,
          h2.1.mpr ⟨fun hc => by simp [dbConfigured] at hc, fun _ => rfl⟩, ?_⟩
  rcases h3.2.2.2.1 with h | h
  · exfalso
    have hk := (h3.1.mp h).2 rfl
    have hv : (healthResponse cfgEmptyPath .pingOk (.listError deadlineErr) t0).Dependencies.kubernetes
        = "DOWN - " ++ deadlineErr.goErrorText := rfl
    rw [hv] at hk
    exact down_ne_up _ hk
  · exact h

/-- C6: every registered probe contributes its entry regardless of the other
probe's outcome — the kubernetes entry is unchanged under any change of the
database outcome (a failed database probe does not skip the cluster probe)
and vice versa; in the scenario of a timed-out database probe with a healthy
cluster probe, the report shows the database DOWN with the captured detail,
the kubernetes probe UP, and overall status 500. -/
theorem C6_no_probe_skipped (cfg : Config) (dbp dbp2 : DbProbeOutcome)
    (kubep kubep2 : KubeProbeOutcome) (e : GoError) (ts : String) :
    ((healthResponse cfg dbp kubep ts).Dependencies.kubernetes =
      (healthResponse cfg dbp2 kubep ts).Dependencies.kubernetes) ∧
    ((healthResponse cfg dbp kubep ts).Dependencies.database =
      (healthResponse cfg dbp kubep2 ts).Dependencies.database) ∧
    ((HealthCheckHandler cfg dbp kubep ts).healthPayload =
      some (healthResponse cfg dbp kubep ts)) ∧
    (dbp = .pingError e → kubep = .listOk →
      (healthResponse cfg dbp kubep ts).Dependencies.database =
        "DOWN - " ++ e.goErrorText ∧
      (healthResponse cfg dbp kubep ts).Dependencies.kubernetes = "UP" ∧
      (HealthCheckHandler cfg dbp kubep ts).statusCode = 500) := by
  cases dbp <;> cases dbp2 <;> cases kubep <;> cases kubep2 <;>
    simp [HealthCheckHandler, healthResponse, dbCheck, kubeCheck,
      SuccessResponse, ErrorResponse, HttpReply.healthPayload] <;>
    (intro h; subst h; rfl)

/-- C6 witness: the scenario instance — database probe exceeding its timeout,
cluster probe healthy. -/
theorem C6_witness :
    (healthResponse cfgEmptyPath (.pingError deadlineErr) .listOk t0).Dependencies.database =
      "DOWN - " ++ deadlineErr.goErrorText ∧
    (healthResponse cfgEmptyPath (.pingError deadlineErr) .listOk t0).Dependencies.kubernetes = "UP" ∧
    (HealthCheckHandler cfgEmptyPath (.pingError deadlineErr) .listOk t0).statusCode = 500 :=
  (C6_no_probe_skipped cfgEmptyPath (.pingError deadlineErr) .noDb .listOk .listOk
    deadlineErr t0).2.2.2 rfl rfl

/-- C7: the aggregator never fails — for every combination of probe outcomes
the handler returns a well-formed reply whose payload carries the timestamp,
the application identity and a Status consistent with the HTTP status, the
status is always 200 or 500, and every probe error is converted locally into
a DOWN entry carrying the captured detail rather than escaping. -/
theorem C7_aggregator_never_fails (cfg : Config) (dbp : DbProbeOutcome)
    (kubep : KubeProbeOutcome) (ts : String) :
    ((healthResponse cfg dbp kubep ts).Timestamp = ts) ∧
    ((healthResponse cfg dbp kubep ts).Application = cfg.App.Name) ∧
    ((healthResponse cfg dbp kubep ts).Status =
      statusText (HealthCheckHandler cfg dbp kubep ts).statusCode) ∧
    ((HealthCheckHandler cfg dbp kubep ts).statusCode = 200 ∨
      (HealthCheckHandler cfg dbp kubep ts).statusCode = 500) ∧
    ((HealthCheckHandler cfg dbp kubep ts).healthPayload =
      some (healthResponse cfg dbp kubep ts)) ∧
    ((HealthCheckHandler cfg dbp kubep ts).body.Message =
      (healthResponse cfg dbp kubep ts).Message) ∧
    (∀ e, dbp = .pingError e →
      (healthResponse cfg dbp kubep ts).Dependencies.database =
        "DOWN - " ++ e.goErrorText) ∧
    (∀ e, dbp = .poolError e →
      (healthResponse cfg dbp kubep ts).Dependencies.database =
        "DOWN - Connection Pool Error") ∧
    (∀ e, kubep = .listError e →
      (healthResponse cfg dbp kubep ts).Dependencies.kubernetes =
        "DOWN - " ++ e.goErrorText) := by
  cases dbp <;> cases kubep <;>
    simp [HealthCheckHandler, healthResponse, dbCheck, kubeCheck,
      SuccessResponse, ErrorResponse, HttpReply.healthPayload, statusText]

/-- C7 witness: the conversion applied to a concrete timed-out database probe
and failing cluster probe. -/
theorem C7_witness :
    (healthResponse cfgEmptyPath (.pingError deadlineErr) (.listError ctorErr) t0).Dependencies.database =
      "DOWN - " ++ deadlineErr.goErrorText ∧
    (healthResponse cfgEmptyPath (.pingError deadlineErr) (.listError ctorErr) t0).Dependencies.kubernetes =
      "DOWN - " ++ ctorErr.goErrorText ∧
    (healthResponse cfgEmptyPath (.pingError deadlineErr) (.listError ctorErr) t0).Timestamp = t0 :=
  ⟨(C7_aggregator_never_fails cfgEmptyPath (.pingError deadlineErr) (.listError ctorErr) t0).2.2.2.2.2.2.1
      deadlineErr rfl,
   (C7_aggregator_never_fails cfgEmptyPath (.pingError deadlineErr) (.listError ctorErr) t0).2.2.2.2.2.2.2.2
      ctorErr rfl,
   (C7_aggregator_never_fails cfgEmptyPath (.pingError deadlineErr) (.listError ctorErr) t0).1⟩

/-- Sample terminal Ready state of the kubernetes package. -/
def sReady : KubePkgState := { clientSet := some csMain, onceDone := true }

/-- C8: once the initialization gate has fired the package state is
immutable — a further InitializeOnce call returns nil and leaves the state
untouched, any run of further calls leaves the state untouched, the gate is
fired after any call, and with a stored client every GetClient call is a pure
read returning that same client instance. -/
theorem C8_terminal_state_immutable (env : K8sEnv) (cfg : Config) (s : KubePkgState) :
    (s.onceDone = true → InitKubernetesClient env cfg s = (none, s)) ∧
    ((InitKubernetesClient env cfg s).2.onceDone = true) ∧
    (∀ n, s.onceDone = true → (runInitCalls env cfg n s).2 = s) ∧
    (∀ cs, s.clientSet = some cs → GetKubernetesClient s = .ok cs) := by
  refine ⟨?_, ?_, ?_, ?_⟩
  · intro h
    simp [InitKubernetesClient, h]
  · by_cases h : s.onceDone <;> simp [InitKubernetesClient, h]
  · intro n h
    rw [runInitCalls_of_onceDone env cfg n s h]
  · intro cs h
    simp [GetKubernetesClient, h]

/-- C8 witness: the immutability facts at the concrete Ready state, in the
world where both strategies would fail if they could ever run again. -/
theorem C8_witness :
    InitKubernetesClient envBothFail cfgEmptyPath sReady = (none, sReady) ∧
    (runInitCalls envBothFail cfgEmptyPath 3 sReady).2 = sReady ∧
    GetKubernetesClient sReady = .ok csMain :=
  ⟨(C8_terminal_state_immutable envBothFail cfgEmptyPath sReady).1 rfl,
   (C8_terminal_state_immutable envBothFail cfgEmptyPath sReady).2.2.1 3 rfl,
   (C8_terminal_state_immutable envBothFail cfgEmptyPath sReady).2.2.2 csMain rfl⟩

/-- C9: the health check is idempotent modulo the timestamp — for a fixed
configuration and fixed probe outcomes, two calls with different timestamps
produce replies that agree on every field once the timestamp is blanked, and
the timestamp field faithfully carries each call's own timestamp. -/
theorem C9_idempotent_mod_timestamp (cfg : Config) (dbp : DbProbeOutcome)
    (kubep : KubeProbeOutcome) (t1 t2 : String) :
    (HealthCheckHandler cfg dbp kubep t1).eraseTimestamp =
      (HealthCheckHandler cfg dbp kubep t2).eraseTimestamp ∧
    (HealthCheckHandler cfg dbp kubep t1).healthPayload.map HealthCheckResponse.Timestamp =
      some t1 := by
  cases dbp <;> cases kubep <;>
    simp [HealthCheckHandler, healthResponse, dbCheck, kubeCheck,
      SuccessResponse, ErrorResponse, HttpReply.eraseTimestamp,
      APIResponse.eraseTimestamp, HealthCheckResponse.eraseTimestamp,
      HttpReply.healthPayload]

/-- C10: GetKubernetesClient takes exactly one of two outcomes — the stored
client with no error, or no client with the not-initialized custom error —
and from a state with no prior successful initialization, an InitializeOnce
call that returns an error never installs a client, so every subsequent
GetKubernetesClient call takes the error outcome. -/
theorem C10_get_dichotomy (env : K8sEnv) (cfg : Config) (s : KubePkgState) :
    ((∃ cs, s.clientSet = some cs ∧ GetKubernetesClient s = .ok cs) ∨
     (s.clientSet = none ∧
      GetKubernetesClient s =
        .error (GoError.customNil ErrCodeK8sClientNotInitialized
          "Kubernetes client has not been initialized. Ensure InitKubernetesClient was called successfully during startup." 500))) ∧
    (∀ e, s.clientSet = none → (InitKubernetesClient env cfg s).1 = some e →
      (InitKubernetesClient env cfg s).2.clientSet = none ∧
      GetKubernetesClient (InitKubernetesClient env cfg s).2 =
        .error (GoError.customNil ErrCodeK8sClientNotInitialized
          "Kubernetes client has not been initialized. Ensure InitKubernetesClient was called successfully during startup." 500)) := by
  constructor
  · cases h : s.clientSet with
    | none => exact Or.inr ⟨rfl, by simp [GetKubernetesClient, h, NewCustomError]⟩
    | some cs => exact Or.inl ⟨cs, rfl, by simp [GetKubernetesClient, h]⟩
  · intro e hnone herr
    by_cases hd : s.onceDone
    · simp [InitKubernetesClient, hd] at herr
    · have hcs : (InitKubernetesClient env cfg s).2.clientSet = none := by
        simp only [InitKubernetesClient, hd, Bool.false_eq_true, if_false]
        rcases h1 : env.InClusterConfig with e1 | rc
        · rcases h2 : env.BuildConfigFromFlags "" (kubeConfigPathOf cfg) with e2 | rc2
          · simp [initOnceBody, h1, h2, hnone]
          · rcases h3 : env.NewForConfig rc2 with e3 | cs
            · simp [initOnceBody, h1, h2, h3]
            · exfalso
              simp [InitKubernetesClient, hd, initOnceBody, h1, h2, h3] at herr
        · rcases h3 : env.NewForConfig rc with e3 | cs
          · simp [initOnceBody, h1, h3]
          · exfalso
            simp [InitKubernetesClient, hd, initOnceBody, h1, h3] at herr
      exact ⟨hcs, by simp [GetKubernetesClient, hcs, NewCustomError]⟩

/-- C10 witness: the dichotomy and the failed-initialization consequence in
the world where both strategies fail, starting from process start. -/
theorem C10_witness :
    (InitKubernetesClient envBothFail cfgEmptyPath initialKubeState).2.clientSet = none ∧
    GetKubernetesClient (InitKubernetesClient envBothFail cfgEmptyPath initialKubeState).2 =
      .error (GoError.customNil ErrCodeK8sClientNotInitialized
        "Kubernetes client has not been initialized. Ensure InitKubernetesClient was called successfully during startup." 500) :=
  (C10_get_dichotomy envBothFail cfgEmptyPath initialKubeState).2
    (GoError.customWrap ErrCodeK8sClientInitFailed
      ("Failed to create Kubernetes config from kubeconfig " ++ RecommendedHomeFile)
      buildErr 500) rfl rfl

end Kylon
